import Mathlib

/-!
Shallow embedding of the weak-reference keep-alive closures of
`src/hotspot/share/gc/serial/defNewGeneration.inline.hpp`
(`DefNewGeneration::KeepAliveClosure::do_oop_work` and
`DefNewGeneration::FastKeepAliveClosure::do_oop_work`) together with the
external collaborators those templates call, and proofs of the spec's
claims about them.

Heap addresses and reference values are modelled as `Nat` (null = 0).
The heap memory is a total map from slot addresses to stored reference
values; the remembered set is a total map from card indices to a
dirty flag.  Each closure invocation additionally reports the single
write-barrier call it performs (the `(slot, value)` pair passed to
`inline_write_ref_field_gc`), so that claims about whether and with
what arguments the barrier primitive is invoked are directly statable.
-/

/-- A heap/remembered-set state: `mem` maps each slot address to the
reference value stored there; `card` maps each card index to its
dirty flag. -/
structure GCState where
  mem : Nat → Nat
  card : Nat → Bool

/-- Collection-time configuration, fixed for the duration of one
collection (spec section 6): the heap's reserved range
`[reservedStart, reservedEnd)`, the upper limit `youngEnd` of the
generation under collection (the young generation occupies
`[reservedStart, youngEnd)`, matching the DefNew layout in which the
collected generation sits at the bottom of the reserved space), the
fast-path closure's cached `boundary` (the field `_boundary`), and the
inner reachability processor `cl` (the closure `_cl`), modelled as the
relocation it applies to the reference value stored in the visited
slot. -/
structure GCConfig where
  reservedStart : Nat
  reservedEnd : Nat
  youngEnd : Nat
  boundary : Nat
  cl : Nat → Nat

/-- Modelled from the spec: `GenCollectedHeap::heap()->is_in_reserved(p)`
(the heap topology collaborator, not under `src/`) — membership of an
address in the heap's reserved range. -/
def is_in_reserved (cfg : GCConfig) (a : Nat) : Bool :=
  cfg.reservedStart ≤ a && a < cfg.reservedEnd

/-- Membership in the young generation, the generation under
collection: the range `[reservedStart, youngEnd)`. -/
def is_in_young (cfg : GCConfig) (a : Nat) : Bool :=
  cfg.reservedStart ≤ a && a < cfg.youngEnd

/-- Membership in a heap range whose generation is older than the one
being collected — equivalently (spec section 4.1), a range whose cards
are scanned by minor collections: the reserved range minus the young
generation. -/
def is_in_old (cfg : GCConfig) (a : Nat) : Bool :=
  is_in_reserved cfg a && !(is_in_young cfg a)

/-- Modelled from the spec: cards are coarse fixed-size heap regions;
the card containing an address, at the source's 512-byte card
granularity. -/
def cardOf (a : Nat) : Nat :=
  a / 512

/-- Modelled from the spec: `CardTableRS::inline_write_ref_field_gc(p, obj)`
(the remembered-set write-barrier primitive, not under `src/`) — dirty
the card containing the slot address `p`; it receives the referenced
value as well but dirtying itself is unconditional and idempotent. -/
def inline_write_ref_field_gc (card : Nat → Bool) (p : Nat) (_obj : Nat) :
    Nat → Bool :=
  fun c => if c = cardOf p then true else card c

/-- Modelled from the spec: `_cl->do_oop_nv(p)` (the inner reachability
processor, not under `src/`) — keeps the referent alive, possibly
relocating it and rewriting the slot to the new address; it touches no
other heap location and has no remembered-set side effect. -/
def do_oop_nv (cfg : GCConfig) (s : GCState) (p : Nat) : GCState :=
  { s with mem := fun a => if a = p then cfg.cl (s.mem a) else s.mem a }

/-- Modelled from the spec: `oopDesc::is_oop(obj)` (not under `src/`) —
a well-formed object reference is in particular non-null. -/
def is_oop (obj : Nat) : Bool :=
  obj != 0

/-- `DefNewGeneration::KeepAliveClosure::do_oop_work(p)` (product
build, the `ASSERT` block compiled out): delegate to the inner
processor, then, if `p` is in the heap's reserved range, re-read the
value at `p` and dirty its card through the write-barrier primitive.
The second component records the `(slot, value)` argument pair of the
barrier call, `none` when the barrier is not invoked. -/
def KeepAliveClosure.do_oop_work (cfg : GCConfig) (s : GCState) (p : Nat) :
    GCState × Option (Nat × Nat) :=
  let s1 := do_oop_nv cfg s p
  if is_in_reserved cfg p then
    let obj := s1.mem p
    ({ s1 with card := inline_write_ref_field_gc s1.card p obj }, some (p, obj))
  else
    (s1, none)

/-- `DefNewGeneration::FastKeepAliveClosure::do_oop_work(p)` (product
build): delegate to the inner processor, re-read the value at `p`, and
dirty `p`'s card iff the re-read value is below `_boundary` and `p` is
in the heap's reserved range.  The second component records the
barrier call as in the general closure. -/
def FastKeepAliveClosure.do_oop_work (cfg : GCConfig) (s : GCState) (p : Nat) :
    GCState × Option (Nat × Nat) :=
  let s1 := do_oop_nv cfg s p
  let obj := s1.mem p
  if obj < cfg.boundary && is_in_reserved cfg p then
    ({ s1 with card := inline_write_ref_field_gc s1.card p obj }, some (p, obj))
  else
    (s1, none)

/-- `KeepAliveClosure::do_oop_work` in a checked (`ASSERT`) build: the
assertion `is_oop` on the value loaded from `p` runs before anything
else; a violation is fatal, modelled as `.error` carrying the state at
the abort point (nothing has been mutated yet). -/
def KeepAliveClosure.do_oop_work_debug (cfg : GCConfig) (s : GCState)
    (p : Nat) : Except GCState (GCState × Option (Nat × Nat)) :=
  if is_oop (s.mem p) then
    .ok (KeepAliveClosure.do_oop_work cfg s p)
  else
    .error s

/-- `FastKeepAliveClosure::do_oop_work` in a checked (`ASSERT`) build,
analogous to the general one. -/
def FastKeepAliveClosure.do_oop_work_debug (cfg : GCConfig) (s : GCState)
    (p : Nat) : Except GCState (GCState × Option (Nat × Nat)) :=
  if is_oop (s.mem p) then
    .ok (FastKeepAliveClosure.do_oop_work cfg s p)
  else
    .error s

/-- The fast-path closure's precondition (spec section 4.2): the
generation under collection is the sole/youngest generation (in this
model it occupies the bottom of the reserved space by construction)
and `_boundary` is set to its upper limit. -/
def fastPrecond (cfg : GCConfig) : Prop :=
  cfg.boundary = cfg.youngEnd

instance (cfg : GCConfig) : Decidable (fastPrecond cfg) := by
  unfold fastPrecond
  infer_instance

/-- A concrete collection configuration used for witnesses and
counterexamples: reserved range `[0, 1024)`, young generation
`[0, 512)`, boundary correctly set to `512`, inner processor that
relocates nothing. -/
def cfgA : GCConfig :=
  ⟨0, 1024, 512, 512, fun v => v⟩

/-- Like `cfgA`, but the inner processor promotes the referent to the
old generation: every referent is relocated to address `600`. -/
def cfgB : GCConfig :=
  ⟨0, 1024, 512, 512, fun _ => 600⟩

/-- A concrete initial state: every slot holds the (young) reference
value `40` and every card is clean. -/
def s0 : GCState :=
  ⟨fun _ => 40, fun _ => false⟩

/-- A concrete state whose slots all hold the null reference. -/
def sNull : GCState :=
  ⟨fun _ => 0, fun _ => false⟩

/-! ## Characterization lemmas for the two closures -/

lemma general_mem (cfg : GCConfig) (s : GCState) (p a : Nat) :
    (KeepAliveClosure.do_oop_work cfg s p).1.mem a =
      if a = p then cfg.cl (s.mem p) else s.mem a := by
  unfold KeepAliveClosure.do_oop_work do_oop_nv
  by_cases h : is_in_reserved cfg p = true <;> by_cases ha : a = p <;>
    simp [h, ha]

lemma general_card (cfg : GCConfig) (s : GCState) (p c : Nat) :
    (KeepAliveClosure.do_oop_work cfg s p).1.card c =
      if is_in_reserved cfg p then
        (if c = cardOf p then true else s.card c)
      else s.card c := by
  unfold KeepAliveClosure.do_oop_work do_oop_nv inline_write_ref_field_gc
  by_cases h : is_in_reserved cfg p = true <;> simp [h]

lemma general_call (cfg : GCConfig) (s : GCState) (p : Nat) :
    (KeepAliveClosure.do_oop_work cfg s p).2 =
      if is_in_reserved cfg p then some (p, cfg.cl (s.mem p)) else none := by
  unfold KeepAliveClosure.do_oop_work do_oop_nv
  by_cases h : is_in_reserved cfg p = true <;> simp [h]

lemma fast_mem (cfg : GCConfig) (s : GCState) (p a : Nat) :
    (FastKeepAliveClosure.do_oop_work cfg s p).1.mem a =
      if a = p then cfg.cl (s.mem p) else s.mem a := by
  unfold FastKeepAliveClosure.do_oop_work do_oop_nv
  by_cases h : (decide (cfg.cl (s.mem p) < cfg.boundary) &&
      is_in_reserved cfg p) = true <;> by_cases ha : a = p <;>
    simp [h, ha]

lemma fast_card (cfg : GCConfig) (s : GCState) (p c : Nat) :
    (FastKeepAliveClosure.do_oop_work cfg s p).1.card c =
      if cfg.cl (s.mem p) < cfg.boundary && is_in_reserved cfg p then
        (if c = cardOf p then true else s.card c)
      else s.card c := by
  unfold FastKeepAliveClosure.do_oop_work do_oop_nv inline_write_ref_field_gc
  by_cases h : (decide (cfg.cl (s.mem p) < cfg.boundary) &&
      is_in_reserved cfg p) = true <;> simp [h]

lemma fast_call (cfg : GCConfig) (s : GCState) (p : Nat) :
    (FastKeepAliveClosure.do_oop_work cfg s p).2 =
      if cfg.cl (s.mem p) < cfg.boundary && is_in_reserved cfg p then
        some (p, cfg.cl (s.mem p))
      else none := by
  unfold FastKeepAliveClosure.do_oop_work do_oop_nv
  by_cases h : (decide (cfg.cl (s.mem p) < cfg.boundary) &&
      is_in_reserved cfg p) = true <;> simp [h]

/-! ## Claims -/

/-- C1 (counterexample): with the fast-path precondition satisfied
(`cfgB.boundary = cfgB.youngEnd`), slot `600` in the old generation
and an inner processor that promotes the referent to old address
`600`, the general closure dirties card `1` (the card of slot `600`)
while the fast-path closure leaves it clean — the two processors do
not yield the same remembered-set state. -/
theorem C1_counterexample :
    fastPrecond cfgB ∧
    s0.card 1 = false ∧
    (KeepAliveClosure.do_oop_work cfgB s0 600).1.card 1 = true ∧
    (FastKeepAliveClosure.do_oop_work cfgB s0 600).1.card 1 = false := by
  refine ⟨by decide, by decide, ?_, ?_⟩ <;> decide

/-- C1 (amended): under the fast-path precondition the two closures
always agree on the final stored value at every address, and they
agree on every card's dirty/clean state whenever the re-read reference
value is below the boundary or the slot is outside the reserved range;
when the slot is in the reserved range and the re-read value is at or
above the boundary the general closure additionally dirties the slot's
card, so full card-state agreement does not hold. -/
theorem C1_equiv_amended (cfg : GCConfig) (s : GCState) (p : Nat)
    (hpre : fastPrecond cfg) :
    (∀ a, (KeepAliveClosure.do_oop_work cfg s p).1.mem a =
        (FastKeepAliveClosure.do_oop_work cfg s p).1.mem a) ∧
    ((cfg.cl (s.mem p) < cfg.boundary ∨ is_in_reserved cfg p = false) →
      ∀ c, (KeepAliveClosure.do_oop_work cfg s p).1.card c =
        (FastKeepAliveClosure.do_oop_work cfg s p).1.card c) := by
  clear hpre
  constructor
  · intro a
    rw [general_mem, fast_mem]
  · intro h c
    rw [general_card, fast_card]
    rcases h with h | h
    · simp [h]
    · simp [h]

/-- C1 (witness for the amended theorem at a concrete input). -/
theorem C1_equiv_amended_witness :
    fastPrecond cfgA ∧
    (KeepAliveClosure.do_oop_work cfgA s0 600).1.mem 600 =
      (FastKeepAliveClosure.do_oop_work cfgA s0 600).1.mem 600 ∧
    (KeepAliveClosure.do_oop_work cfgA s0 600).1.card 1 =
      (FastKeepAliveClosure.do_oop_work cfgA s0 600).1.card 1 :=
  ⟨by decide,
   (C1_equiv_amended cfgA s0 600 (by decide)).1 600,
   (C1_equiv_amended cfgA s0 600 (by decide)).2 (Or.inl (by decide)) 1⟩

/-- C2 (counterexample): slot `100` lies in the young generation, not
in any older generation, yet the general closure does invoke the
write-barrier primitive on it. -/
theorem C2_counterexample :
    is_in_old cfgA 100 = false ∧
    (KeepAliveClosure.do_oop_work cfgA s0 100).2.isSome = true := by
  refine ⟨by decide, by decide⟩

/-- C2 (amended): the general closure invokes the write-barrier
primitive — passing the slot address and the re-read, possibly updated
reference value — if and only if the slot lies in the heap's reserved
range, which includes the young generation and not only the older
generations. -/
theorem C2_barrier_iff_reserved (cfg : GCConfig) (s : GCState) (p : Nat) :
    (KeepAliveClosure.do_oop_work cfg s p).2.isSome = is_in_reserved cfg p ∧
    (KeepAliveClosure.do_oop_work cfg s p).2 =
      (if is_in_reserved cfg p then some (p, cfg.cl (s.mem p)) else none) := by
  refine ⟨?_, general_call cfg s p⟩
  rw [general_call]
  by_cases h : is_in_reserved cfg p = true <;> simp [h]

/-- C3 (counterexample): slot `100` lies in the young generation with
its card `0` initially clean, and both closures dirty card `0` — the
card of a young-generation slot is not immune to dirtying. -/
theorem C3_counterexample :
    is_in_young cfgA 100 = true ∧
    s0.card 0 = false ∧
    (KeepAliveClosure.do_oop_work cfgA s0 100).1.card 0 = true ∧
    (FastKeepAliveClosure.do_oop_work cfgA s0 100).1.card 0 = true := by
  refine ⟨by decide, by decide, ?_, ?_⟩ <;> decide

/-- C3 (amended): for a slot inside the young generation (hence
inside the reserved range), the general closure always dirties the
slot's card, the fast-path closure dirties it exactly when the re-read
value is below the boundary, and neither closure changes any other
card. -/
theorem C3_young_slot_amended (cfg : GCConfig) (s : GCState) (p : Nat)
    (hy : is_in_young cfg p = true)
    (hwf : cfg.youngEnd ≤ cfg.reservedEnd) :
    (KeepAliveClosure.do_oop_work cfg s p).1.card (cardOf p) = true ∧
    (FastKeepAliveClosure.do_oop_work cfg s p).1.card (cardOf p) =
      (if cfg.cl (s.mem p) < cfg.boundary then true else s.card (cardOf p)) ∧
    (∀ c, c ≠ cardOf p →
      (KeepAliveClosure.do_oop_work cfg s p).1.card c = s.card c ∧
      (FastKeepAliveClosure.do_oop_work cfg s p).1.card c = s.card c) := by
  have hr : is_in_reserved cfg p = true := by
    unfold is_in_young at hy
    unfold is_in_reserved
    simp only [Bool.and_eq_true, decide_eq_true_eq] at hy ⊢
    exact ⟨hy.1, lt_of_lt_of_le hy.2 hwf⟩
  refine ⟨?_, ?_, ?_⟩
  · rw [general_card]
    simp [hr]
  · rw [fast_card]
    by_cases hb : cfg.cl (s.mem p) < cfg.boundary <;> simp [hr, hb]
  · intro c hc
    rw [general_card, fast_card]
    by_cases hb : cfg.cl (s.mem p) < cfg.boundary <;> simp [hr, hb, hc]

/-- C3 (witness for the amended theorem at a concrete input). -/
theorem C3_young_slot_amended_witness :
    is_in_young cfgA 100 = true ∧ cfgA.youngEnd ≤ cfgA.reservedEnd ∧
    (KeepAliveClosure.do_oop_work cfgA s0 100).1.card (cardOf 100) = true :=
  ⟨by decide, by decide,
   (C3_young_slot_amended cfgA s0 100 (by decide) (by decide)).1⟩

/-- C4 (counterexample): slot `600` with card `1` initially clean; the
inner processor relocates the referent to `600`, which is not in the
young generation, yet the general closure dirties card `1`. -/
theorem C4_counterexample :
    s0.card 1 = false ∧
    is_in_young cfgB ((KeepAliveClosure.do_oop_work cfgB s0 600).1.mem 600)
      = false ∧
    (KeepAliveClosure.do_oop_work cfgB s0 600).1.card 1 = true := by
  refine ⟨by decide, ?_, ?_⟩ <;> decide

/-- C4 (amended): if the slot's card is clean beforehand and the
re-read reference value is at or above the boundary (not young), the
fast-path closure leaves that card clean; the general closure leaves
it clean only when the slot is outside the reserved range — whenever
the slot is inside the reserved range the general closure dirties the
slot's card regardless of where the referent points. -/
theorem C4_no_spurious_amended (cfg : GCConfig) (s : GCState) (p : Nat)
    (hclean : s.card (cardOf p) = false)
    (hnot : cfg.boundary ≤ cfg.cl (s.mem p)) :
    (FastKeepAliveClosure.do_oop_work cfg s p).1.card (cardOf p) = false ∧
    (is_in_reserved cfg p = false →
      (KeepAliveClosure.do_oop_work cfg s p).1.card (cardOf p) = false) ∧
    (is_in_reserved cfg p = true →
      (KeepAliveClosure.do_oop_work cfg s p).1.card (cardOf p) = true) := by
  have hb : ¬ cfg.cl (s.mem p) < cfg.boundary := not_lt.mpr hnot
  refine ⟨?_, ?_, ?_⟩
  · rw [fast_card]
    simp [hb, hclean]
  · intro h
    rw [general_card]
    simp [h, hclean]
  · intro h
    rw [general_card]
    simp [h]

/-- C4 (witness for the amended theorem at a concrete input). -/
theorem C4_no_spurious_amended_witness :
    s0.card (cardOf 600) = false ∧
    cfgB.boundary ≤ cfgB.cl (s0.mem 600) ∧
    (FastKeepAliveClosure.do_oop_work cfgB s0 600).1.card (cardOf 600)
      = false :=
  ⟨by decide, by decide,
   (C4_no_spurious_amended cfgB s0 600 (by decide) (by decide)).1⟩

/-- C5 (confirmed): if the slot lies in an older (tracked) generation
and the re-read reference value lies in the young generation, then —
with the fast path's boundary correctly set to the young generation's
upper limit — both closures leave the slot's card dirty, whatever its
prior state. -/
theorem C5_mandatory_dirtying (cfg : GCConfig) (s : GCState) (p : Nat)
    (hpre : fastPrecond cfg)
    (hold : is_in_old cfg p = true)
    (hyoung : is_in_young cfg (cfg.cl (s.mem p)) = true) :
    (KeepAliveClosure.do_oop_work cfg s p).1.card (cardOf p) = true ∧
    (FastKeepAliveClosure.do_oop_work cfg s p).1.card (cardOf p) = true := by
  have hr : is_in_reserved cfg p = true := by
    unfold is_in_old at hold
    exact (Bool.and_eq_true _ _).mp hold |>.1
  have hb : cfg.cl (s.mem p) < cfg.boundary := by
    unfold is_in_young at hyoung
    simp only [Bool.and_eq_true, decide_eq_true_eq] at hyoung
    rw [hpre]
    exact hyoung.2
  constructor
  · rw [general_card]
    simp [hr]
  · rw [fast_card]
    simp [hr, hb]

/-- C5 (witness at a concrete input): old slot `600` holding young
reference `40`, not relocated. -/
theorem C5_mandatory_dirtying_witness :
    fastPrecond cfgA ∧ is_in_old cfgA 600 = true ∧
    is_in_young cfgA (cfgA.cl (s0.mem 600)) = true ∧
    (KeepAliveClosure.do_oop_work cfgA s0 600).1.card (cardOf 600) = true ∧
    (FastKeepAliveClosure.do_oop_work cfgA s0 600).1.card (cardOf 600)
      = true :=
  ⟨by decide, by decide, by decide,
   (C5_mandatory_dirtying cfgA s0 600 (by decide) (by decide) (by decide)).1,
   (C5_mandatory_dirtying cfgA s0 600 (by decide) (by decide) (by decide)).2⟩

/-- C6 (confirmed): in a checked (`ASSERT`) build, a slot holding a
value that is not a well-formed non-null reference (modelled from the
spec as null) makes either closure fail its leading assertion; the
`.error` result carries the state at the abort point, which is the
unchanged initial state — in particular the remembered set has not
been mutated. -/
theorem C6_null_assert (cfg : GCConfig) (s : GCState) (p : Nat)
    (h : is_oop (s.mem p) = false) :
    KeepAliveClosure.do_oop_work_debug cfg s p = .error s ∧
    FastKeepAliveClosure.do_oop_work_debug cfg s p = .error s := by
  unfold KeepAliveClosure.do_oop_work_debug FastKeepAliveClosure.do_oop_work_debug
  simp [h]

/-- C6 (witness at a concrete input): slot `600` holds null in
`sNull`; both debug closures abort with the initial state intact. -/
theorem C6_null_assert_witness :
    is_oop (sNull.mem 600) = false ∧
    KeepAliveClosure.do_oop_work_debug cfgA sNull 600 = .error sNull ∧
    FastKeepAliveClosure.do_oop_work_debug cfgA sNull 600 = .error sNull :=
  ⟨by decide,
   (C6_null_assert cfgA sNull 600 (by decide)).1,
   (C6_null_assert cfgA sNull 600 (by decide)).2⟩

/-- C7 (confirmed): the fast-path closure invokes the write-barrier
primitive — and thereby dirties the slot's card — exactly when the
re-read reference value is strictly below the cached boundary and the
slot address is inside the heap's reserved range. -/
theorem C7_fast_barrier_iff (cfg : GCConfig) (s : GCState) (p : Nat) :
    (FastKeepAliveClosure.do_oop_work cfg s p).2 =
      (if cfg.cl (s.mem p) < cfg.boundary && is_in_reserved cfg p then
        some (p, cfg.cl (s.mem p))
      else none) ∧
    (FastKeepAliveClosure.do_oop_work cfg s p).1.card (cardOf p) =
      (if cfg.cl (s.mem p) < cfg.boundary && is_in_reserved cfg p then
        true
      else s.card (cardOf p)) := by
  refine ⟨fast_call cfg s p, ?_⟩
  rw [fast_card]
  by_cases h : (decide (cfg.cl (s.mem p) < cfg.boundary) &&
      is_in_reserved cfg p) = true <;> simp [h]

/-- C8 (confirmed): in either closure the inner reachability processor
runs first, and both the dirtying decision and the value handed to the
write-barrier primitive use the value re-read from the slot after the
inner processor ran — the post-`do_oop_nv` value, i.e. the relocated
reference, never the original one. -/
theorem C8_reread_after_inner (cfg : GCConfig) (s : GCState) (p : Nat) :
    (KeepAliveClosure.do_oop_work cfg s p).2 =
      (if is_in_reserved cfg p then
        some (p, (do_oop_nv cfg s p).mem p)
      else none) ∧
    (FastKeepAliveClosure.do_oop_work cfg s p).2 =
      (if (do_oop_nv cfg s p).mem p < cfg.boundary && is_in_reserved cfg p then
        some (p, (do_oop_nv cfg s p).mem p)
      else none) ∧
    (do_oop_nv cfg s p).mem p = cfg.cl (s.mem p) := by
  have hm : (do_oop_nv cfg s p).mem p = cfg.cl (s.mem p) := by
    unfold do_oop_nv
    simp
  rw [hm]
  exact ⟨general_call cfg s p, fast_call cfg s p, rfl⟩

/-- C9 (confirmed): an invocation of either closure changes at most
the visited slot's stored value and the visited slot's card: every
other heap location and every card not containing the slot is left
unchanged, and the slot's new value is exactly the one produced by the
inner reachability processor. -/
theorem C9_frame (cfg : GCConfig) (s : GCState) (p q c : Nat)
    (hq : q ≠ p) (hc : c ≠ cardOf p) :
    (KeepAliveClosure.do_oop_work cfg s p).1.mem q = s.mem q ∧
    (FastKeepAliveClosure.do_oop_work cfg s p).1.mem q = s.mem q ∧
    (KeepAliveClosure.do_oop_work cfg s p).1.card c = s.card c ∧
    (FastKeepAliveClosure.do_oop_work cfg s p).1.card c = s.card c ∧
    (KeepAliveClosure.do_oop_work cfg s p).1.mem p =
      (do_oop_nv cfg s p).mem p ∧
    (FastKeepAliveClosure.do_oop_work cfg s p).1.mem p =
      (do_oop_nv cfg s p).mem p := by
  have hm : (do_oop_nv cfg s p).mem p = cfg.cl (s.mem p) := by
    unfold do_oop_nv
    simp
  refine ⟨?_, ?_, ?_, ?_, ?_, ?_⟩
  · rw [general_mem]
    simp [hq]
  · rw [fast_mem]
    simp [hq]
  · rw [general_card]
    by_cases h : is_in_reserved cfg p = true <;> simp [h, hc]
  · rw [fast_card]
    by_cases h : (decide (cfg.cl (s.mem p) < cfg.boundary) &&
        is_in_reserved cfg p) = true <;> simp [h, hc]
  · rw [general_mem, hm]
    simp
  · rw [fast_mem, hm]
    simp

/-- C9 (witness at a concrete input): visiting slot `600` leaves slot
`601` and card `0` untouched. -/
theorem C9_frame_witness :
    (601 : Nat) ≠ 600 ∧ (0 : Nat) ≠ cardOf 600 ∧
    (KeepAliveClosure.do_oop_work cfgA s0 600).1.mem 601 = s0.mem 601 ∧
    (FastKeepAliveClosure.do_oop_work cfgA s0 600).1.card 0 = s0.card 0 :=
  ⟨by decide, by decide,
   (C9_frame cfgA s0 600 601 0 (by decide) (by decide)).1,
   (C9_frame cfgA s0 600 601 0 (by decide) (by decide)).2.2.2.1⟩

/-- C10 (confirmed): for a slot outside the heap's reserved range,
neither closure invokes the write-barrier primitive and every card is
left exactly as it was. -/
theorem C10_outside_reserved (cfg : GCConfig) (s : GCState) (p : Nat)
    (h : is_in_reserved cfg p = false) :
    (KeepAliveClosure.do_oop_work cfg s p).2 = none ∧
    (FastKeepAliveClosure.do_oop_work cfg s p).2 = none ∧
    (∀ c, (KeepAliveClosure.do_oop_work cfg s p).1.card c = s.card c) ∧
    (∀ c, (FastKeepAliveClosure.do_oop_work cfg s p).1.card c = s.card c) := by
  refine ⟨?_, ?_, ?_, ?_⟩
  · rw [general_call]
    simp [h]
  · rw [fast_call]
    simp [h]
  · intro c
    rw [general_card]
    simp [h]
  · intro c
    rw [fast_card]
    simp [h]

/-- C10 (witness at a concrete input): slot `2000` lies outside the
reserved range `[0, 1024)`; no barrier call, card `3` (the card of
`2000`) stays clean. -/
theorem C10_outside_reserved_witness :
    is_in_reserved cfgA 2000 = false ∧
    (KeepAliveClosure.do_oop_work cfgA s0 2000).2 = none ∧
    (FastKeepAliveClosure.do_oop_work cfgA s0 2000).2 = none ∧
    (KeepAliveClosure.do_oop_work cfgA s0 2000).1.card 3 = s0.card 3 :=
  ⟨by decide,
   (C10_outside_reserved cfgA s0 2000 (by decide)).1,
   (C10_outside_reserved cfgA s0 2000 (by decide)).2.1,
   (C10_outside_reserved cfgA s0 2000 (by decide)).2.2.1 3⟩
